import Mathlib

/-!
Shallow embedding of the CIP (covered interest parity) calculator.

The source is a small Python library with two files:
* `cip.py` with the pure functions `calculate_forward_rate`,
  `calculate_multiple_forward_rates`, `does_cip_equality_hold`;
* `cip_interpreter.py` with a value object `ForwardRateInterpreter` exposing
  derived properties and a text-generation method.

Numbers are modelled as exact rationals (`ℚ`).  Python raises
`ZeroDivisionError` on division by zero (for floats as well as ints), so every
division whose divisor can be zero goes through `pydiv`, and fallible
computations live in `Except PyError`.  The builtin `round(x, n)` of the
source platform rounds half to even; it is modelled by `pyround` via
`roundHalfEven`.
-/

/-- The only runtime error the source can raise: the `ZeroDivisionError` of
the source platform. -/
inductive PyError where
  | zeroDivisionError
deriving DecidableEq, Repr

deriving instance DecidableEq for Except

/-- Division as in the source platform: raises `ZeroDivisionError` when the
divisor is zero, otherwise exact division. -/
def pydiv (a b : ℚ) : Except PyError ℚ :=
  if b = 0 then Except.error PyError.zeroDivisionError else Except.ok (a / b)

/-- Round a rational to the nearest integer, ties to even (the convention of
the builtin `round`).  `Rat.floor` is used rather than `⌊·⌋` so that the
definition evaluates by kernel reduction; the two agree definitionally
on `ℚ`. -/
def roundHalfEven (x : ℚ) : ℤ :=
  if x - Rat.floor x < 1/2 then Rat.floor x
  else if 1/2 < x - Rat.floor x then Rat.floor x + 1
  else if Rat.floor x % 2 = 0 then Rat.floor x else Rat.floor x + 1

theorem ratFloor_eq_intFloor (x : ℚ) : (Rat.floor x : ℚ) = (⌊x⌋ : ℚ) := rfl

/-- `round(x, n)` of the source platform: round to `n` decimal places, ties
to even. -/
def pyround (x : ℚ) (n : ℕ) : ℚ :=
  (roundHalfEven (x * 10 ^ n) : ℚ) / 10 ^ n

/-- `cip.calculate_forward_rate`: the forward rate from simple-interest
payoffs, day count ACT/365.  `days_to_maturity / 365` and all other
arithmetic is exact; the two divisions that can raise (`1 / spot_rate` and
the final payoff ratio) go through `pydiv`. -/
def calculate_forward_rate (domestic_rate_annual foreign_rate_annual : ℚ)
    (days_to_maturity : ℤ) (spot_rate : ℚ) : Except PyError ℚ :=
  -- Assume ACT/365
  let tenor_years : ℚ := (days_to_maturity : ℚ) / 365
  -- Domestic payoff (in domestic currency)
  let domestic_rate_scaled := domestic_rate_annual * tenor_years
  let domestic_payoff := 1 + domestic_rate_scaled
  -- Foreign payoff (in foreign currency)
  let foreign_rate_scaled := foreign_rate_annual * tenor_years
  match pydiv 1 spot_rate with
  | Except.error e => Except.error e
  | Except.ok inv_spot =>
    let foreign_payoff_in_foreign_currency := (1 + foreign_rate_scaled) * inv_spot
    -- Forward rate: domestic currency per 1 unit of foreign currency
    pydiv domestic_payoff foreign_payoff_in_foreign_currency

/-- `cip.calculate_multiple_forward_rates`: the source loops over
`tenors_days` appending `calculate_forward_rate` of each tenor, in order,
so the whole call fails on the first raised error. -/
def calculate_multiple_forward_rates (domestic_rate_annual foreign_rate_annual : ℚ)
    (tenors_days : List ℤ) (spot_rate : ℚ) : Except PyError (List ℚ) :=
  match tenors_days with
  | [] => Except.ok []
  | tenor_days :: rest =>
    match calculate_forward_rate domestic_rate_annual foreign_rate_annual tenor_days spot_rate with
    | Except.error e => Except.error e
    | Except.ok fr =>
      match calculate_multiple_forward_rates domestic_rate_annual foreign_rate_annual rest spot_rate with
      | Except.error e => Except.error e
      | Except.ok frs => Except.ok (fr :: frs)

/-- `cip.does_cip_equality_hold`: recompute both payoffs exactly as in
`calculate_forward_rate` and compare with absolute tolerance `1e-10`. -/
def does_cip_equality_hold (forward_rate domestic_rate_annual foreign_rate_annual : ℚ)
    (days_to_maturity : ℤ) (spot_rate : ℚ) : Except PyError Bool :=
  -- Assume ACT/365
  let tenor_years : ℚ := (days_to_maturity : ℚ) / 365
  let domestic_rate_scaled := domestic_rate_annual * tenor_years
  let domestic_payoff := 1 + domestic_rate_scaled
  let foreign_rate_scaled := foreign_rate_annual * tenor_years
  match pydiv 1 spot_rate with
  | Except.error e => Except.error e
  | Except.ok inv_spot =>
    let foreign_payoff_in_foreign_currency := (1 + foreign_rate_scaled) * inv_spot
    Except.ok
      (decide (|domestic_payoff - foreign_payoff_in_foreign_currency * forward_rate| < 1 / 10 ^ 10))

/-- `cip_interpreter.ForwardRateInterpreter.__init__`: stores the triple
unchanged, no validation. -/
structure ForwardRateInterpreter where
  forward_rate : ℚ
  spot_rate : ℚ
  tenor_days : ℤ

/-- Property `forward_spot_ratio`: `round(forward_rate / spot_rate, 4)`. -/
def ForwardRateInterpreter.forward_spot_ratio (self : ForwardRateInterpreter) :
    Except PyError ℚ :=
  match pydiv self.forward_rate self.spot_rate with
  | Except.error e => Except.error e
  | Except.ok r => Except.ok (pyround r 4)

/-- Property `forward_premium_discount`: `round(forward_spot_ratio - 1, 4)`. -/
def ForwardRateInterpreter.forward_premium_discount (self : ForwardRateInterpreter) :
    Except PyError ℚ :=
  match ForwardRateInterpreter.forward_spot_ratio self with
  | Except.error e => Except.error e
  | Except.ok r => Except.ok (pyround (r - 1) 4)

/-- Property `annualised_premium_discount`:
`round((forward_spot_ratio - 1) * (1 / (tenor_days / 360)), 4)`.
`tenor_days / 360` is exact here; the division `1 / (tenor_days / 360)`
raises when `tenor_days == 0`. -/
def ForwardRateInterpreter.annualised_premium_discount (self : ForwardRateInterpreter) :
    Except PyError ℚ :=
  match ForwardRateInterpreter.forward_spot_ratio self with
  | Except.error e => Except.error e
  | Except.ok r =>
    match pydiv 1 ((self.tenor_days : ℚ) / 360) with
    | Except.error e => Except.error e
    | Except.ok inv_tenor => Except.ok (pyround ((r - 1) * inv_tenor) 4)

/-- Property `forward_points`:
`round((forward_rate - spot_rate) * 10_000, 0)`. -/
def ForwardRateInterpreter.forward_points (self : ForwardRateInterpreter) : ℚ :=
  -- Currently assumes 1 pip is 0.0001 of quoted rate
  pyround ((self.forward_rate - self.spot_rate) * 10000) 0

/-- The `:.2f` format of the source platform applied to a rational: round to
two decimal places, ties to even, and print with exactly two digits after the
decimal point. -/
def formatFixed2 (x : ℚ) : String :=
  let n := roundHalfEven (x * 100)
  let sign := if n < 0 then "-" else ""
  let m := n.natAbs
  let fracPart := m % 100
  let fracStr := if fracPart < 10 then "0" ++ toString fracPart else toString fracPart
  sign ++ toString (m / 100) ++ "." ++ fracStr

/-- `get_detailed_interpretations`: branch on `forward_spot_ratio > 1` and
return six fixed statements; the fifth and sixth embed
`abs((forward_spot_ratio - 1) * 100)` formatted with `:.2f`. -/
def ForwardRateInterpreter.get_detailed_interpretations (self : ForwardRateInterpreter) :
    Except PyError (List String) :=
  match ForwardRateInterpreter.forward_spot_ratio self with
  | Except.error e => Except.error e
  | Except.ok r =>
    if 1 < r then
      let pct := formatFixed2 |(r - 1) * 100|
      Except.ok
        [ "The forward rate is greater than the spot rate which implies that domestic rates are higher than foreign rates.",
          "Intuition: If the domestic rates are higher than foreign rates then the forward needs to be higher (foreign currency appreciation) than spot to makeup for higher domestic payoff.",
          "1 unit of foreign currency will buy more domestic currency at time T (today) than it does at today\x27s spot (foreign currency is at a forward premium)",
          "Also means the same amount of domestic currency will buy less foreign currency at time T today than it does today\x27s spot (domestic currency is at a forward discount)",
          "Domestic currency forward must be " ++ pct ++ "% cheaper (relative to spot) to prevent arbitrage.",
          "Foreign currency forward must be " ++ pct ++ "% more expensive (relative to spot) to prevent arbitrage." ]
    else
      let pct := formatFixed2 |(r - 1) * 100|
      Except.ok
        [ "The forward rate is less than the spot rate which implies that domestic rates are lower than foreign rates.",
          "Intuition: If the domestic rates are lower than foreign rates then the forward needs to be lower (foreign currency depreciation) than spot to makeup for lower domestic payoff.",
          "1 unit of foreign currency will buy less domestic currency at time T (today) than it does at today\x27s spot (foreign currency is at a forward discount)",
          "Also means the same amount of domestic currency will buy more foreign currency at time T today than it does today\x27s spot (domestic currency is at a forward premium)",
          "Domestic currency must be " ++ pct ++ "% more expensive in the forward (relative to spot) to prevent arbitrage.",
          "Foreign currency must be " ++ pct ++ "% cheaper in the forward to prevent arbitrage." ]

/-! ### Helper lemmas -/

theorem pydiv_of_ne (a b : ℚ) (hb : b ≠ 0) : pydiv a b = Except.ok (a / b) := by
  simp [pydiv, hb]

theorem pydiv_of_eq_zero (a : ℚ) : pydiv a 0 = Except.error PyError.zeroDivisionError := by
  simp [pydiv]

theorem pydiv_eq_ok_iff (a b c : ℚ) : pydiv a b = Except.ok c ↔ b ≠ 0 ∧ c = a / b := by
  unfold pydiv
  by_cases hb : b = 0 <;> simp [hb, eq_comm]

/-- Full characterisation of `calculate_forward_rate`: it returns a value
exactly when `spot_rate ≠ 0` and the converted foreign payoff is nonzero, and
the value is the payoff ratio with day count ACT/365. -/
theorem calculate_forward_rate_ok_iff (d f : ℚ) (t : ℤ) (s v : ℚ) :
    calculate_forward_rate d f t s = Except.ok v ↔
      s ≠ 0 ∧ 1 + f * ((t : ℚ) / 365) ≠ 0 ∧
        v = (1 + d * ((t : ℚ) / 365)) / ((1 + f * ((t : ℚ) / 365)) * (1 / s)) := by
  unfold calculate_forward_rate
  by_cases hs : s = 0
  · simp [hs, pydiv_of_eq_zero]
  · by_cases hf : 1 + f * ((t : ℚ) / 365) = 0
    · have hzero : (1 + f * ((t : ℚ) / 365)) * (1 / s) = 0 := by rw [hf, zero_mul]
      simp [pydiv_of_ne 1 s hs, hzero, pydiv, hs, hf]
    · have hprod : (1 + f * ((t : ℚ) / 365)) * s⁻¹ ≠ 0 :=
        mul_ne_zero hf (inv_ne_zero hs)
      simp [pydiv_of_ne 1 s hs, pydiv_of_ne _ _ hprod, hs, hf, eq_comm, one_div]

theorem calculate_forward_rate_of_ne (d f : ℚ) (t : ℤ) (s : ℚ) (hs : s ≠ 0)
    (hf : 1 + f * ((t : ℚ) / 365) ≠ 0) :
    calculate_forward_rate d f t s =
      Except.ok ((1 + d * ((t : ℚ) / 365)) / ((1 + f * ((t : ℚ) / 365)) * (1 / s))) :=
  (calculate_forward_rate_ok_iff d f t s _).mpr ⟨hs, hf, rfl⟩

/-- `roundHalfEven` is a correct rounding to the nearest integer: it is within
one half of its argument, and at an exact tie it picks the even integer. -/
theorem roundHalfEven_spec (x : ℚ) :
    |(roundHalfEven x : ℚ) - x| ≤ 1/2 ∧
      (|(roundHalfEven x : ℚ) - x| = 1/2 → 2 ∣ roundHalfEven x) := by
  unfold roundHalfEven
  have h0 : (0 : ℚ) ≤ x - (Rat.floor x : ℚ) := by
    rw [ratFloor_eq_intFloor]
    exact sub_nonneg.mpr (Int.floor_le x)
  have h1 : x - (Rat.floor x : ℚ) < 1 := by
    rw [ratFloor_eq_intFloor]
    have := Int.lt_floor_add_one x
    linarith
  split_ifs with hlt hgt he
  · constructor
    · rw [abs_sub_comm, abs_of_nonneg h0]; linarith
    · intro habs
      rw [abs_sub_comm, abs_of_nonneg h0] at habs
      exact absurd habs (ne_of_lt hlt)
  · constructor
    · push_cast
      rw [abs_of_nonneg (by linarith)]
      linarith
    · intro habs
      push_cast at habs
      rw [abs_of_nonneg (by linarith)] at habs
      have : x - (Rat.floor x : ℚ) = 1/2 := by linarith
      exact absurd this (ne_of_gt hgt)
  · have htie : x - (Rat.floor x : ℚ) = 1/2 := le_antisymm (not_lt.mp hgt) (not_lt.mp hlt)
    constructor
    · rw [abs_sub_comm, abs_of_nonneg h0, htie]
    · intro _
      exact Int.dvd_of_emod_eq_zero he
  · have htie : x - (Rat.floor x : ℚ) = 1/2 := le_antisymm (not_lt.mp hgt) (not_lt.mp hlt)
    constructor
    · push_cast
      rw [abs_of_nonneg (by linarith)]
      linarith
    · intro _
      omega

/-! ### Claim theorems -/

/-- C1: for every domestic rate `d`, foreign rate `f`, tenor `t` and spot
rate `s`, whenever `calculate_forward_rate d f t s` computes a value `fr`
(in particular `s ≠ 0`), the check `does_cip_equality_hold fr d f t s`
returns `true`. -/
theorem cip_round_trip (d f : ℚ) (t : ℤ) (s fr : ℚ)
    (h : calculate_forward_rate d f t s = Except.ok fr) :
    does_cip_equality_hold fr d f t s = Except.ok true := by
  rw [calculate_forward_rate_ok_iff] at h
  obtain ⟨hs, hf, hv⟩ := h
  have hprod : (1 + f * ((t : ℚ) / 365)) * (1 / s) ≠ 0 :=
    mul_ne_zero hf (one_div_ne_zero hs)
  have hmain :
      |1 + d * ((t : ℚ) / 365) - (1 + f * ((t : ℚ) / 365)) * (1 / s) * fr| < 1 / 10 ^ 10 := by
    rw [hv, mul_comm ((1 + f * ((t : ℚ) / 365)) * (1 / s)), div_mul_cancel₀ _ hprod]
    norm_num
  unfold does_cip_equality_hold
  simp only [pydiv_of_ne 1 s hs, Except.ok.injEq, decide_eq_true_eq]
  exact hmain

theorem cip_round_trip_witness :
    does_cip_equality_hold (35/34) (5/100) (2/100) 365 1 = Except.ok true :=
  cip_round_trip (5/100) (2/100) 365 1 (35/34)
    (by rw [calculate_forward_rate_of_ne _ _ _ _ (by norm_num) (by norm_num)]; norm_num)

/-- C2: with zero tenor the forward rate equals the spot rate exactly,
for every nonzero spot rate. -/
theorem zero_tenor_identity (d f s : ℚ) (hs : s ≠ 0) :
    calculate_forward_rate d f 0 s = Except.ok s := by
  rw [calculate_forward_rate_of_ne d f 0 s hs (by norm_num)]
  norm_num

theorem zero_tenor_identity_witness :
    calculate_forward_rate (5/100) (2/100) 0 (3/2) = Except.ok (3/2) :=
  zero_tenor_identity (5/100) (2/100) (3/2) (by norm_num)

/-- C3 counterexample: the docstring example value `1.0074` is wrong; the
code returns `35/34 ≈ 1.0294` for `(0.05, 0.02, 365, 1.0)`, which is further
than `1e-3` from `1.0074`. -/
theorem concrete_example_refuted :
    calculate_forward_rate (5/100) (2/100) 365 1 = Except.ok (35/34) ∧
    1/1000 < |(35 : ℚ)/34 - 10074/10000| := by
  constructor
  · rw [calculate_forward_rate_of_ne _ _ _ _ (by norm_num) (by norm_num)]
    norm_num
  · rw [abs_of_pos (by norm_num)]
    norm_num

/-- C3 amended: the values the code actually returns.
`calculate_forward_rate (0.05, 0.02, 365, 1.0) = 35/34` is within `1e-4` of
`1.0294`, and `calculate_multiple_forward_rates (0.05, 0.02, [30,60,90,120],
1.0)` is within `1e-4`, element by element, of `[1.0025, 1.0049, 1.0074,
1.0098]`. -/
theorem concrete_examples_amended :
    calculate_forward_rate (5/100) (2/100) 365 1 = Except.ok (35/34) ∧
    |(35 : ℚ)/34 - 10294/10000| < 1/10^4 ∧
    calculate_multiple_forward_rates (5/100) (2/100) [30, 60, 90, 120] 1 =
      Except.ok [3665/3656, 1840/1831, 3695/3668, 1855/1837] ∧
    |(3665 : ℚ)/3656 - 10025/10000| < 1/10^4 ∧
    |(1840 : ℚ)/1831 - 10049/10000| < 1/10^4 ∧
    |(3695 : ℚ)/3668 - 10074/10000| < 1/10^4 ∧
    |(1855 : ℚ)/1837 - 10098/10000| < 1/10^4 := by
  refine ⟨?_, ?_, ?_, ?_, ?_, ?_, ?_⟩
  · rw [calculate_forward_rate_of_ne _ _ _ _ (by norm_num) (by norm_num)]
    norm_num
  · rw [abs_of_pos (by norm_num)]
    norm_num
  · simp only [calculate_multiple_forward_rates,
      calculate_forward_rate_of_ne (5/100) (2/100) 30 1 (by norm_num) (by norm_num),
      calculate_forward_rate_of_ne (5/100) (2/100) 60 1 (by norm_num) (by norm_num),
      calculate_forward_rate_of_ne (5/100) (2/100) 90 1 (by norm_num) (by norm_num),
      calculate_forward_rate_of_ne (5/100) (2/100) 120 1 (by norm_num) (by norm_num)]
    norm_num
  · rw [abs_of_neg (by norm_num)]
    norm_num
  · rw [abs_of_pos (by norm_num)]
    norm_num
  · rw [abs_of_neg (by norm_num)]
    norm_num
  · rw [abs_of_neg (by norm_num)]
    norm_num

/-- C6: with `spot_rate == 0` both `calculate_forward_rate` and
`does_cip_equality_hold` fail fast with the typed division-by-zero error
instead of returning a value, and reading `annualised_premium_discount` on an
interpreter with `tenor_days == 0` fails the same way; in this exact-rational
model no NaN or infinity exists to be returned. -/
theorem division_by_zero_fails_fast :
    (∀ (d f : ℚ) (t : ℤ) (fr : ℚ),
      calculate_forward_rate d f t 0 = Except.error PyError.zeroDivisionError ∧
      does_cip_equality_hold fr d f t 0 = Except.error PyError.zeroDivisionError) ∧
    (∀ I : ForwardRateInterpreter, I.tenor_days = 0 →
      ForwardRateInterpreter.annualised_premium_discount I =
        Except.error PyError.zeroDivisionError) := by
  constructor
  · intro d f t fr
    constructor
    · unfold calculate_forward_rate
      simp [pydiv_of_eq_zero]
    · unfold does_cip_equality_hold
      simp [pydiv_of_eq_zero]
  · intro I ht
    unfold ForwardRateInterpreter.annualised_premium_discount
    unfold ForwardRateInterpreter.forward_spot_ratio
    by_cases hs : I.spot_rate = 0
    · simp [hs, pydiv_of_eq_zero]
    · simp [pydiv_of_ne _ _ hs, ht, pydiv_of_eq_zero]

theorem division_by_zero_fails_fast_witness :
    calculate_forward_rate (5/100) (2/100) 365 0 = Except.error PyError.zeroDivisionError ∧
    does_cip_equality_hold 1 (5/100) (2/100) 365 0 = Except.error PyError.zeroDivisionError ∧
    ForwardRateInterpreter.annualised_premium_discount (ForwardRateInterpreter.mk 1 1 0) =
      Except.error PyError.zeroDivisionError :=
  ⟨(division_by_zero_fails_fast.1 (5/100) (2/100) 365 1).1,
   (division_by_zero_fails_fast.1 (5/100) (2/100) 365 1).2,
   division_by_zero_fails_fast.2 (ForwardRateInterpreter.mk 1 1 0) rfl⟩

/-- C4: whenever `calculate_multiple_forward_rates` returns a list, it has
one entry per tenor and its `i`-th entry is exactly what
`calculate_forward_rate` returns on the `i`-th tenor (input order is
preserved); the empty tenor list yields the empty list. -/
theorem multi_tenor_order_preservation (d f s : ℚ) (ts : List ℤ) (l : List ℚ)
    (h : calculate_multiple_forward_rates d f ts s = Except.ok l) :
    (l.length = ts.length ∧
      ∀ i (hi : i < ts.length), ∃ v, l.get? i = some v ∧
        calculate_forward_rate d f (ts.get ⟨i, hi⟩) s = Except.ok v) ∧
    calculate_multiple_forward_rates d f [] s = Except.ok [] := by
  refine ⟨?_, rfl⟩
  induction ts generalizing l with
  | nil =>
    unfold calculate_multiple_forward_rates at h
    simp only [Except.ok.injEq] at h
    subst h
    exact ⟨rfl, fun i hi => absurd hi (by simp)⟩
  | cons t rest ih =>
    unfold calculate_multiple_forward_rates at h
    cases hcf : calculate_forward_rate d f t s with
    | error e => rw [hcf] at h; simp at h
    | ok fr =>
      rw [hcf] at h
      cases hrest : calculate_multiple_forward_rates d f rest s with
      | error e => rw [hrest] at h; simp at h
      | ok frs =>
        rw [hrest] at h
        simp only [Except.ok.injEq] at h
        subst h
        obtain ⟨ihlen, ihget⟩ := ih frs hrest
        refine ⟨by simp [ihlen], ?_⟩
        intro i hi
        match i with
        | 0 => exact ⟨fr, rfl, hcf⟩
        | (j+1) =>
          have hj : j < rest.length := by simpa using hi
          obtain ⟨v, hv1, hv2⟩ := ihget j hj
          exact ⟨v, hv1, hv2⟩

theorem multi_tenor_order_preservation_witness :
    (([(3665 : ℚ)/3656, 1840/1831].length = [(30 : ℤ), 60].length ∧
      ∀ i (hi : i < [(30 : ℤ), 60].length), ∃ v,
        [(3665 : ℚ)/3656, 1840/1831].get? i = some v ∧
        calculate_forward_rate (5/100) (2/100) ([(30 : ℤ), 60].get ⟨i, hi⟩) 1 =
          Except.ok v) ∧
    calculate_multiple_forward_rates (5/100) (2/100) [] 1 = Except.ok []) :=
  multi_tenor_order_preservation (5/100) (2/100) 1 [30, 60] [3665/3656, 1840/1831]
    (by
      simp only [calculate_multiple_forward_rates,
        calculate_forward_rate_of_ne (5/100) (2/100) 30 1 (by norm_num) (by norm_num),
        calculate_forward_rate_of_ne (5/100) (2/100) 60 1 (by norm_num) (by norm_num)]
      norm_num)

/-- C5 counterexample: with `spot_rate = 1 ≠ 0`, `days_to_maturity = 365 > 0`
and `foreign_rate_annual = -2`, raising the domestic rate from `0` to `1`
lowers the forward rate from `-1` to `-2`, so the forward rate is not
strictly increasing in the domestic rate under the stated hypotheses alone. -/
theorem monotonicity_refuted :
    calculate_forward_rate 0 (-2) 365 1 = Except.ok (-1) ∧
    calculate_forward_rate 1 (-2) 365 1 = Except.ok (-2) ∧
    ¬ ((-1 : ℚ) < -2) := by
  refine ⟨?_, ?_, by norm_num⟩
  · rw [calculate_forward_rate_of_ne _ _ _ _ (by norm_num) (by norm_num)]
    norm_num
  · rw [calculate_forward_rate_of_ne _ _ _ _ (by norm_num) (by norm_num)]
    norm_num

/-- C5 amended: for `days_to_maturity > 0` and `spot_rate > 0`, the forward
rate is strictly increasing in the domestic rate as long as the foreign
payoff factor `1 + f * t/365` is positive, and strictly decreasing in the
foreign rate as long as the domestic payoff factor `1 + d * t/365` is
positive and both foreign payoff factors are positive. -/
theorem monotonicity_amended (t : ℤ) (s : ℚ) (ht : 0 < t) (hs : 0 < s) :
    (∀ d₁ d₂ f : ℚ, 0 < 1 + f * ((t : ℚ) / 365) → d₁ < d₂ →
      ∃ v₁ v₂, calculate_forward_rate d₁ f t s = Except.ok v₁ ∧
        calculate_forward_rate d₂ f t s = Except.ok v₂ ∧ v₁ < v₂) ∧
    (∀ d f₁ f₂ : ℚ, 0 < 1 + d * ((t : ℚ) / 365) →
      0 < 1 + f₁ * ((t : ℚ) / 365) → 0 < 1 + f₂ * ((t : ℚ) / 365) → f₁ < f₂ →
      ∃ v₁ v₂, calculate_forward_rate d f₁ t s = Except.ok v₁ ∧
        calculate_forward_rate d f₂ t s = Except.ok v₂ ∧ v₂ < v₁) := by
  have hty : (0 : ℚ) < (t : ℚ) / 365 := by
    apply div_pos _ (by norm_num)
    exact_mod_cast ht
  constructor
  · intro d₁ d₂ f hf hd
    refine ⟨_, _, calculate_forward_rate_of_ne d₁ f t s (ne_of_gt hs) (ne_of_gt hf),
      calculate_forward_rate_of_ne d₂ f t s (ne_of_gt hs) (ne_of_gt hf), ?_⟩
    have hF : (0 : ℚ) < (1 + f * ((t : ℚ) / 365)) * (1 / s) :=
      mul_pos hf (by positivity)
    have hD : 1 + d₁ * ((t : ℚ) / 365) < 1 + d₂ * ((t : ℚ) / 365) := by
      have := mul_lt_mul_of_pos_right hd hty
      linarith
    exact div_lt_div_of_pos_right hD hF
  · intro d f₁ f₂ hd hf₁ hf₂ hf
    refine ⟨_, _, calculate_forward_rate_of_ne d f₁ t s (ne_of_gt hs) (ne_of_gt hf₁),
      calculate_forward_rate_of_ne d f₂ t s (ne_of_gt hs) (ne_of_gt hf₂), ?_⟩
    rw [mul_one_div, mul_one_div, div_div_eq_mul_div, div_div_eq_mul_div]
    have hDs : (0 : ℚ) < (1 + d * ((t : ℚ) / 365)) * s := mul_pos hd hs
    have hFF : 1 + f₁ * ((t : ℚ) / 365) < 1 + f₂ * ((t : ℚ) / 365) := by
      have := mul_lt_mul_of_pos_right hf hty
      linarith
    exact div_lt_div_of_pos_left hDs hf₁ hFF

theorem monotonicity_amended_witness :
    (∃ v₁ v₂, calculate_forward_rate 0 (2/100) 365 1 = Except.ok v₁ ∧
      calculate_forward_rate (5/100) (2/100) 365 1 = Except.ok v₂ ∧ v₁ < v₂) ∧
    (∃ v₁ v₂, calculate_forward_rate (5/100) 0 365 1 = Except.ok v₁ ∧
      calculate_forward_rate (5/100) (2/100) 365 1 = Except.ok v₂ ∧ v₂ < v₁) :=
  ⟨(monotonicity_amended 365 1 (by norm_num) (by norm_num)).1 0 (5/100) (2/100)
      (by norm_num) (by norm_num),
   (monotonicity_amended 365 1 (by norm_num) (by norm_num)).2 (5/100) 0 (2/100)
      (by norm_num) (by norm_num) (by norm_num) (by norm_num)⟩

theorem ratFloor_eq_floor (x : ℚ) : Rat.floor x = ⌊x⌋ := rfl

/-- C7 counterexample: the branch is selected on the rounded ratio
`forward_spot_ratio > 1`, not on `forward_rate > spot_rate`.  With
`forward_rate = 1.00004 > 1 = spot_rate` the ratio rounds to exactly `1`,
so the method returns the six "lower" statements, contradicting the claim
that `forward_rate > spot_rate` yields the "domestic rates higher" text. -/
theorem interpreter_branch_refuted :
    (ForwardRateInterpreter.mk (100004/100000) 1 30).spot_rate <
      (ForwardRateInterpreter.mk (100004/100000) 1 30).forward_rate ∧
    ForwardRateInterpreter.get_detailed_interpretations
      (ForwardRateInterpreter.mk (100004/100000) 1 30) =
      Except.ok
        [ "The forward rate is less than the spot rate which implies that domestic rates are lower than foreign rates.",
          "Intuition: If the domestic rates are lower than foreign rates then the forward needs to be lower (foreign currency depreciation) than spot to makeup for lower domestic payoff.",
          "1 unit of foreign currency will buy less domestic currency at time T (today) than it does at today\x27s spot (foreign currency is at a forward discount)",
          "Also means the same amount of domestic currency will buy more foreign currency at time T today than it does today\x27s spot (domestic currency is at a forward premium)",
          "Domestic currency must be 0.00% more expensive in the forward (relative to spot) to prevent arbitrage.",
          "Foreign currency must be 0.00% cheaper in the forward to prevent arbitrage." ] := by
  constructor
  · show (1 : ℚ) < 100004/100000
    norm_num
  · have hfsr : ForwardRateInterpreter.forward_spot_ratio
        (ForwardRateInterpreter.mk (100004/100000) 1 30) = Except.ok 1 := by
      unfold ForwardRateInterpreter.forward_spot_ratio
      norm_num [pydiv, pyround, roundHalfEven, ratFloor_eq_floor]
    have hpct : formatFixed2 0 = "0.00" := by
      norm_num [formatFixed2, roundHalfEven, ratFloor_eq_floor]
      decide
    unfold ForwardRateInterpreter.get_detailed_interpretations
    rw [hfsr]
    norm_num [hpct]
    exact ⟨rfl, rfl⟩

/-- C7 amended: for every interpreter whose `forward_spot_ratio` computes to
a value `r`, `get_detailed_interpretations` returns exactly six statements;
when the rounded ratio `r > 1` (rather than `forward_rate > spot_rate`) the
text says domestic rates are higher than foreign rates, otherwise it says
they are lower; and in both branches the fifth and sixth statements embed
`|r - 1| * 100` formatted to exactly two decimal places. -/
theorem interpreter_branch_amended (I : ForwardRateInterpreter) (r : ℚ)
    (h : ForwardRateInterpreter.forward_spot_ratio I = Except.ok r) :
    ∃ l : List String,
      ForwardRateInterpreter.get_detailed_interpretations I = Except.ok l ∧
      l.length = 6 ∧
      (1 < r → l.get? 0 = some "The forward rate is greater than the spot rate which implies that domestic rates are higher than foreign rates.") ∧
      (¬ 1 < r → l.get? 0 = some "The forward rate is less than the spot rate which implies that domestic rates are lower than foreign rates.") ∧
      (1 < r →
        l.get? 4 = some ("Domestic currency forward must be " ++ formatFixed2 |(r - 1) * 100| ++ "% cheaper (relative to spot) to prevent arbitrage.") ∧
        l.get? 5 = some ("Foreign currency forward must be " ++ formatFixed2 |(r - 1) * 100| ++ "% more expensive (relative to spot) to prevent arbitrage.")) ∧
      (¬ 1 < r →
        l.get? 4 = some ("Domestic currency must be " ++ formatFixed2 |(r - 1) * 100| ++ "% more expensive in the forward (relative to spot) to prevent arbitrage.") ∧
        l.get? 5 = some ("Foreign currency must be " ++ formatFixed2 |(r - 1) * 100| ++ "% cheaper in the forward to prevent arbitrage.")) := by
  simp only [ForwardRateInterpreter.get_detailed_interpretations, h]
  by_cases h1 : 1 < r
  · rw [if_pos h1]
    exact ⟨_, rfl, rfl, fun _ => rfl, fun hc => absurd h1 hc,
      fun _ => ⟨rfl, rfl⟩, fun hc => absurd h1 hc⟩
  · rw [if_neg h1]
    exact ⟨_, rfl, rfl, fun hc => absurd hc h1, fun _ => rfl,
      fun hc => absurd hc h1, fun _ => ⟨rfl, rfl⟩⟩

theorem interpreter_branch_amended_witness :
    ∃ l : List String,
      ForwardRateInterpreter.get_detailed_interpretations
        (ForwardRateInterpreter.mk (10074/10000) 1 90) = Except.ok l ∧
      l.length = 6 ∧
      (1 < (10074 : ℚ)/10000 → l.get? 0 = some "The forward rate is greater than the spot rate which implies that domestic rates are higher than foreign rates.") ∧
      (¬ 1 < (10074 : ℚ)/10000 → l.get? 0 = some "The forward rate is less than the spot rate which implies that domestic rates are lower than foreign rates.") ∧
      (1 < (10074 : ℚ)/10000 →
        l.get? 4 = some ("Domestic currency forward must be " ++ formatFixed2 |((10074 : ℚ)/10000 - 1) * 100| ++ "% cheaper (relative to spot) to prevent arbitrage.") ∧
        l.get? 5 = some ("Foreign currency forward must be " ++ formatFixed2 |((10074 : ℚ)/10000 - 1) * 100| ++ "% more expensive (relative to spot) to prevent arbitrage.")) ∧
      (¬ 1 < (10074 : ℚ)/10000 →
        l.get? 4 = some ("Domestic currency must be " ++ formatFixed2 |((10074 : ℚ)/10000 - 1) * 100| ++ "% more expensive in the forward (relative to spot) to prevent arbitrage.") ∧
        l.get? 5 = some ("Foreign currency must be " ++ formatFixed2 |((10074 : ℚ)/10000 - 1) * 100| ++ "% cheaper in the forward to prevent arbitrage.")) :=
  interpreter_branch_amended (ForwardRateInterpreter.mk (10074/10000) 1 90) (10074/10000)
    (by
      unfold ForwardRateInterpreter.forward_spot_ratio
      norm_num [pydiv, pyround, roundHalfEven, ratFloor_eq_floor])

/-- C8: `forward_points` is `(forward_rate - spot_rate) * 10000` rounded to
the nearest integer with ties to even: it always differs from the exact
product by at most one half, at an exact tie the chosen integer is even, and
on `forward_rate = 1.0074`, `spot_rate = 1.0` it returns `74`. -/
theorem forward_points_round_half_even :
    (∀ I : ForwardRateInterpreter,
      ForwardRateInterpreter.forward_points I =
        (roundHalfEven ((I.forward_rate - I.spot_rate) * 10000) : ℚ) ∧
      |(roundHalfEven ((I.forward_rate - I.spot_rate) * 10000) : ℚ) -
          (I.forward_rate - I.spot_rate) * 10000| ≤ 1/2 ∧
      (|(roundHalfEven ((I.forward_rate - I.spot_rate) * 10000) : ℚ) -
          (I.forward_rate - I.spot_rate) * 10000| = 1/2 →
        2 ∣ roundHalfEven ((I.forward_rate - I.spot_rate) * 10000))) ∧
    ForwardRateInterpreter.forward_points (ForwardRateInterpreter.mk (10074/10000) 1 90) = 74 := by
  constructor
  · intro I
    refine ⟨?_, (roundHalfEven_spec _).1, (roundHalfEven_spec _).2⟩
    unfold ForwardRateInterpreter.forward_points pyround
    norm_num
  · norm_num [ForwardRateInterpreter.forward_points, pyround, roundHalfEven, ratFloor_eq_floor]

theorem forward_points_round_half_even_witness :
    (2 : ℤ) ∣ roundHalfEven (((100005 : ℚ)/100000 - 1) * 10000) :=
  ((forward_points_round_half_even.1 (ForwardRateInterpreter.mk (100005/100000) 1 0)).2.2)
    (by norm_num [roundHalfEven, ratFloor_eq_floor])

/-- C9: on an interpreter with nonzero tenor and spot rate,
`annualised_premium_discount` is `(forward_spot_ratio - 1) * (360 /
tenor_days)` rounded to four decimal places (ACT/360), while
`calculate_forward_rate` converts days with `days / 365` (ACT/365): the
day-count asymmetry of the two components is preserved exactly. -/
theorem day_count_asymmetry :
    (∀ I : ForwardRateInterpreter, I.tenor_days ≠ 0 → I.spot_rate ≠ 0 →
      ForwardRateInterpreter.annualised_premium_discount I =
        Except.ok (pyround ((pyround (I.forward_rate / I.spot_rate) 4 - 1) *
          (360 / (I.tenor_days : ℚ))) 4)) ∧
    (∀ (d f : ℚ) (t : ℤ) (s : ℚ), s ≠ 0 → 1 + f * ((t : ℚ) / 365) ≠ 0 →
      calculate_forward_rate d f t s =
        Except.ok ((1 + d * ((t : ℚ) / 365)) / ((1 + f * ((t : ℚ) / 365)) * (1 / s)))) := by
  constructor
  · intro I ht hs
    have htq : ((I.tenor_days : ℚ) / 360) ≠ 0 := by
      apply div_ne_zero _ (by norm_num)
      exact_mod_cast ht
    unfold ForwardRateInterpreter.annualised_premium_discount
    unfold ForwardRateInterpreter.forward_spot_ratio
    simp only [pydiv_of_ne _ _ hs, pydiv_of_ne _ _ htq, one_div_div]
  · intro d f t s hs hf
    exact calculate_forward_rate_of_ne d f t s hs hf

theorem day_count_asymmetry_witness :
    ForwardRateInterpreter.annualised_premium_discount (ForwardRateInterpreter.mk (10074/10000) 1 90) =
      Except.ok (pyround ((pyround ((10074 : ℚ)/10000 / 1) 4 - 1) * (360 / ((90 : ℤ) : ℚ))) 4) ∧
    calculate_forward_rate (5/100) (2/100) 365 1 =
      Except.ok ((1 + (5/100) * ((365 : ℚ) / 365)) / ((1 + (2/100) * ((365 : ℚ) / 365)) * (1 / 1))) :=
  ⟨day_count_asymmetry.1 (ForwardRateInterpreter.mk (10074/10000) 1 90)
      (by norm_num) (by norm_num),
   day_count_asymmetry.2 (5/100) (2/100) 365 1 (by norm_num) (by norm_num)⟩

/-- C10: constructing a `ForwardRateInterpreter` never fails and stores the
triple unchanged with no validation; any division-by-zero failure is deferred
to the derived reads: with `spot_rate = 0` every derived property and
`get_detailed_interpretations` fails on read, with `spot_rate ≠ 0` the ratio
reads fine, and with `tenor_days = 0` the annualised premium fails on read. -/
theorem constructor_never_fails :
    ∀ (fr s : ℚ) (td : ℤ),
      ((ForwardRateInterpreter.mk fr s td).forward_rate = fr ∧
        (ForwardRateInterpreter.mk fr s td).spot_rate = s ∧
        (ForwardRateInterpreter.mk fr s td).tenor_days = td) ∧
      (s = 0 →
        ForwardRateInterpreter.forward_spot_ratio (ForwardRateInterpreter.mk fr s td) =
          Except.error PyError.zeroDivisionError ∧
        ForwardRateInterpreter.forward_premium_discount (ForwardRateInterpreter.mk fr s td) =
          Except.error PyError.zeroDivisionError ∧
        ForwardRateInterpreter.annualised_premium_discount (ForwardRateInterpreter.mk fr s td) =
          Except.error PyError.zeroDivisionError ∧
        ForwardRateInterpreter.get_detailed_interpretations (ForwardRateInterpreter.mk fr s td) =
          Except.error PyError.zeroDivisionError) ∧
      (s ≠ 0 → ∃ v, ForwardRateInterpreter.forward_spot_ratio (ForwardRateInterpreter.mk fr s td) =
        Except.ok v) ∧
      (td = 0 → ForwardRateInterpreter.annualised_premium_discount (ForwardRateInterpreter.mk fr s td) =
        Except.error PyError.zeroDivisionError) := by
  intro fr s td
  refine ⟨⟨rfl, rfl, rfl⟩, ?_, ?_, ?_⟩
  · intro hs0
    have hfsr : ForwardRateInterpreter.forward_spot_ratio (ForwardRateInterpreter.mk fr s td) =
        Except.error PyError.zeroDivisionError := by
      unfold ForwardRateInterpreter.forward_spot_ratio
      simp [hs0, pydiv_of_eq_zero]
    refine ⟨hfsr, ?_, ?_, ?_⟩
    · unfold ForwardRateInterpreter.forward_premium_discount
      rw [hfsr]
    · unfold ForwardRateInterpreter.annualised_premium_discount
      rw [hfsr]
    · unfold ForwardRateInterpreter.get_detailed_interpretations
      rw [hfsr]
  · intro hs
    refine ⟨pyround (fr / s) 4, ?_⟩
    unfold ForwardRateInterpreter.forward_spot_ratio
    simp [pydiv_of_ne _ _ hs]
  · intro htd0
    unfold ForwardRateInterpreter.annualised_premium_discount
    unfold ForwardRateInterpreter.forward_spot_ratio
    by_cases hs : s = 0
    · simp [hs, pydiv_of_eq_zero]
    · simp [pydiv_of_ne _ _ hs, htd0, pydiv_of_eq_zero]

theorem constructor_never_fails_witness :
    ForwardRateInterpreter.forward_spot_ratio (ForwardRateInterpreter.mk 1 0 5) =
      Except.error PyError.zeroDivisionError ∧
    (∃ v, ForwardRateInterpreter.forward_spot_ratio (ForwardRateInterpreter.mk 1 1 5) =
      Except.ok v) ∧
    ForwardRateInterpreter.annualised_premium_discount (ForwardRateInterpreter.mk 1 1 0) =
      Except.error PyError.zeroDivisionError :=
  ⟨((constructor_never_fails 1 0 5).2.1 rfl).1,
   (constructor_never_fails 1 1 5).2.2.1 (by norm_num),
   (constructor_never_fails 1 1 0).2.2.2 rfl⟩
